import Mathlib

/-!
Shallow embedding of the backstop emissions manager
(`src/backstop/src/emissions/manager.rs`) of the Blend protocol.

Pools and the backstop are identified by opaque addresses, modelled as `Nat`.
Machine integers (`i128`, `u64`) are modelled as `Int`/`Nat`; the checked
fixed-point operations of the `soroban_fixed_point_math` crate return `Option`
and are modelled with explicit `i128` range checks, since `unwrap_optimized` on
their `None` results is a reachable abort. Contract invocations are atomic on
the Soroban host: any panic or typed error rolls the whole invocation back, so
every state-mutating operation is modelled as `Except ContractError`, returning
either the final state or the abort cause with no partial state.
-/

namespace Blend

/-- Pool / contract addresses, opaque identifiers. -/
abbrev Addr := Nat

/-- `SCALAR_7 = 10^7`, the 7-decimal fixed-point scalar (token amounts). -/
def SCALAR_7 : Int := 10000000

/-- `SCALAR_14 = 10^14`, the 14-decimal fixed-point scalar (emission indexes). -/
def SCALAR_14 : Int := 100000000000000

/-- Maximum number of pools in the reward zone. -/
def MAX_RZ_SIZE : Nat := 50

/-- Modelled from the spec: `MAX_BACKFILLED_EMISSIONS` lives in the backstop's
`constants.rs`, which is not among the provided sources. The spec gives the
protocol-defined hard cap as "e.g. 5 000 000 · 10⁷". -/
def MAX_BACKFILLED_EMISSIONS : Int := 5000000 * SCALAR_7

/-- Modelled from the spec: `LEDGER_BUMP_USER` lives in the backstop's
`storage.rs`, which is not among the provided sources. The spec describes it as
"≈ 120 days of sequence numbers"; at one ledger per 5 seconds that is
`120 * 17280` sequence numbers. -/
def LEDGER_BUMP_USER : Nat := 120 * 17280

/-- Largest `i128` value, `2^127 - 1`. The sentinel `MAX_INT` emission index. -/
def I128_MAX : Int := 170141183460469231731687303715884105727

/-- Smallest `i128` value, `-2^127`. -/
def I128_MIN : Int := -170141183460469231731687303715884105728

/-- `x` is representable as an `i128`. -/
def fitsI128 (x : Int) : Prop := I128_MIN ≤ x ∧ x ≤ I128_MAX

instance : DecidablePred fitsI128 := fun x =>
  inferInstanceAs (Decidable (I128_MIN ≤ x ∧ x ≤ I128_MAX))

/-- `i128::checked_mul`: `none` on overflow. -/
def checked_mul (x y : Int) : Option Int :=
  if fitsI128 (x * y) then some (x * y) else none

/-- Modelled from the spec: the FP component of `soroban_fixed_point_math`
(not among the provided sources) — "mul_floor/ceil, div_floor/ceil"
"Mul-then-div with explicit rounding direction". `fixed_mul_floor x y d`
is `floor (x*y/d)` on `i128`, `none` on overflow or division by zero. -/
def fixed_mul_floor (x y denominator : Int) : Option Int :=
  match checked_mul x y with
  | none => none
  | some r => if denominator = 0 then none else some (Int.fdiv r denominator)

/-- Modelled from the spec (see `fixed_mul_floor`): `fixed_div_floor x y d` is
`floor (x*d/y)` on `i128`, `none` on overflow or division by zero. -/
def fixed_div_floor (x y denominator : Int) : Option Int :=
  match checked_mul x denominator with
  | none => none
  | some r => if y = 0 then none else some (Int.fdiv r y)

/-- `cast::u64` applied to an `i128`: `none` when out of `u64` range
(`unwrap_optimized` then aborts). -/
def u64_cast (x : Int) : Option Int :=
  if 0 ≤ x ∧ x ≤ 18446744073709551615 then some x else none

/-- Modelled from the spec: `PoolBalance` lives in the backstop's pool module,
not among the provided sources. "Pool's backstop deposit book (tokens, shares,
queued-for-withdrawal tokens)". -/
structure PoolBalance where
  shares : Int
  tokens : Int
  q4w : Int
deriving DecidableEq, Repr

/-- Modelled from the spec: "Exposes `non_queued_tokens()` = tokens − q4w". -/
def PoolBalance.non_queued_tokens (pb : PoolBalance) : Int := pb.tokens - pb.q4w

/-- Per-pool reward zone emission record (`storage::RzEmissionData`). -/
structure RzEmissionData where
  index : Int
  accrued : Int
deriving DecidableEq, Repr

/-- Per-pool backstop depositor emission record
(`storage::BackstopEmissionData`). `eps` is a `u64`, 14-decimal fixed point. -/
structure BackstopEmissionData where
  eps : Int
  expiration : Nat
  index : Int
  last_time : Nat
deriving DecidableEq, Repr

/-- Abort causes. `BadRequest`, `InvalidRewardZoneEntry`, `RewardZoneFull` and
`MaxBackfillEmissions` are the typed `BackstopError` codes raised by the
manager; `UnwrapPanic` is an `unwrap_optimized` on `None` (including the
checked fixed-point math overflowing); `ArithPanic` is a trap of a plain
checked machine-integer operation (e.g. `u64` underflow). -/
inductive ContractError where
  | BadRequest
  | InvalidRewardZoneEntry
  | RewardZoneFull
  | MaxBackfillEmissions
  | UnwrapPanic
  | ArithPanic
deriving DecidableEq, Repr

/-- The backstop contract's durable storage relevant to the emissions manager.
`pool_balance` is total (the storage getter defaults to an empty balance);
`allowance`/`allowance_exp` model the BLND token contract's
allowance(backstop → pool) book, which the manager mutates via `approve`. -/
structure BackstopState where
  reward_zone : List Addr
  rz_emission_index : Int
  rz_emis : Addr → Option RzEmissionData
  backstop_emis : Addr → Option BackstopEmissionData
  pool_balance : Addr → PoolBalance
  last_distribution : Nat
  backfill_status : Option Bool
  backfill_emissions : Int
  allowance : Addr → Int
  allowance_exp : Addr → Nat

/-- Host environment of one invocation: ledger timestamp and sequence, the
Emitter's reply to `try_get_last_distro` (`none` = the Emitter does not
recognise this backstop), and the externally computed
`require_pool_above_threshold` verdict per pool. -/
structure HostEnv where
  timestamp : Nat
  sequence : Nat
  emitter_distro : Option Nat
  above_threshold : Addr → Bool

/-- Write one pool's `RzEmissionData` (`storage::set_rz_emis_data`). -/
def BackstopState.with_rz_emis (s : BackstopState) (p : Addr) (d : RzEmissionData) :
    BackstopState :=
  { s with rz_emis := fun a => if a = p then some d else s.rz_emis a }

/-- Write one pool's `BackstopEmissionData` (`storage::set_backstop_emis_data`). -/
def BackstopState.with_backstop_emis (s : BackstopState) (p : Addr)
    (d : BackstopEmissionData) : BackstopState :=
  { s with backstop_emis := fun a => if a = p then some d else s.backstop_emis a }

/-- `set_rz_emissions` (manager.rs line 244): store the record, zeroing
`accrued` and returning it when `to_gulp`. -/
def set_rz_emissions (s : BackstopState) (pool_id : Addr) (index accrued : Int)
    (to_gulp : Bool) : BackstopState × Int :=
  if to_gulp then
    (s.with_rz_emis pool_id { index := index, accrued := 0 }, accrued)
  else
    (s.with_rz_emis pool_id { index := index, accrued := accrued }, 0)

/-- `update_rz_emis_data` (manager.rs line 223): realise a pool's share of the
global index since its last observation. -/
def update_rz_emis_data (s : BackstopState) (pool : Addr) (to_gulp : Bool) :
    Except ContractError (BackstopState × Int) :=
  match s.rz_emis pool with
  | none => .ok (s, 0)
  | some emission_data =>
    let pool_balance := s.pool_balance pool
    let gulp_index := s.rz_emission_index
    let accrued := emission_data.accrued
    if emission_data.index < gulp_index ∨ to_gulp = true then
      if pool_balance.non_queued_tokens > 0 then
        match fixed_mul_floor pool_balance.non_queued_tokens
            (gulp_index - emission_data.index) SCALAR_14 with
        | none => .error .UnwrapPanic
        | some new_emissions =>
          .ok (set_rz_emissions s pool gulp_index (accrued + new_emissions) to_gulp)
      else
        .ok (set_rz_emissions s pool gulp_index accrued to_gulp)
    else
      .ok (s, 0)

/-- Modelled from the spec: `update_emission_data` lives in the backstop's
`emissions/distributor.rs`, which is not among the provided sources. Per the
spec: "Invariant: index strictly advances
`+= (min(now, expiration) − last_time) · eps / total_backstop_shares`",
"Idempotence: advancing with `reserve_index == user_index` is a no-op.
Expiration: once `now > expiration`, further advances use
`min(now, expiration)` for the delta and cease growing the index."
`eps` is 14-decimal while the index delta is per-share in token terms, so the
quotient carries the 7-decimal scale (`· SCALAR_7 / shares`), floored.
Returns `none` when the pool has no backstop emission record. -/
def update_emission_data (s : BackstopState) (env : HostEnv) (pool_id : Addr)
    (pool_balance : PoolBalance) : Option BackstopEmissionData :=
  match s.backstop_emis pool_id with
  | none => none
  | some d =>
    let t := min env.timestamp d.expiration
    if t ≤ d.last_time ∨ pool_balance.shares ≤ 0 ∨ d.eps = 0 then some d
    else
      some { d with
        index := d.index + Int.fdiv (((t : Int) - (d.last_time : Int)) * d.eps * SCALAR_7)
          pool_balance.shares,
        last_time := env.timestamp }

/-- `set_backstop_emission_eps` (manager.rs line 255): install a fresh 7-day
EPS window, carrying over the tokens the expiring window still owed. -/
def set_backstop_emission_eps (s : BackstopState) (env : HostEnv) (pool_id : Addr)
    (pool_balance : PoolBalance) (new_tokens : Int) :
    Except ContractError BackstopState :=
  let expiration := env.timestamp + 7 * 24 * 60 * 60
  match update_emission_data s env pool_id pool_balance with
  | some emission_data0 =>
    -- force the emission data to the current timestamp
    let emission_data := { emission_data0 with last_time := env.timestamp }
    let carry : Except ContractError Int :=
      if env.timestamp < emission_data.expiration then
        let time_since_last_emission := emission_data.expiration - env.timestamp
        match fixed_mul_floor emission_data.eps (time_since_last_emission : Int) SCALAR_7 with
        | none => .error .UnwrapPanic
        | some tokens_since_last_emission => .ok tokens_since_last_emission
      else .ok 0
    match carry with
    | .error e => .error e
    | .ok c =>
      let tokens_left_to_emit := new_tokens + c
      match u64_cast (Int.tdiv (tokens_left_to_emit * SCALAR_7) (7 * 24 * 60 * 60)) with
      | none => .error .UnwrapPanic
      | some eps =>
        .ok (s.with_backstop_emis pool_id
          { emission_data with eps := eps, expiration := expiration })
  | none =>
    match u64_cast (Int.tdiv (new_tokens * SCALAR_7) (7 * 24 * 60 * 60)) with
    | none => .error .UnwrapPanic
    | some eps =>
      .ok (s.with_backstop_emis pool_id
        { eps := eps, expiration := expiration, index := 0, last_time := env.timestamp })

/-- `gulp_emissions` (manager.rs line 195): realise a pool's new emissions and
split them 70 % to the backstop EPS allocator / 30 % to the pool's BLND
allowance. Returns `(backstop share, pool share)`. -/
def gulp_emissions (s : BackstopState) (env : HostEnv) (pool : Addr) :
    Except ContractError (BackstopState × (Int × Int)) :=
  let pool_balance := s.pool_balance pool
  match update_rz_emis_data s pool true with
  | .error e => .error e
  | .ok (s1, new_emissions) =>
    if new_emissions > 0 then
      match fixed_mul_floor new_emissions 7000000 SCALAR_7,
          fixed_mul_floor new_emissions 3000000 SCALAR_7 with
      | some new_backstop_emissions, some new_pool_emissions =>
        let current_allowance := s1.allowance pool
        let new_seq := env.sequence + LEDGER_BUMP_USER
        let s2 := { s1 with
          allowance := fun a =>
            if a = pool then current_allowance + new_pool_emissions else s1.allowance a,
          allowance_exp := fun a => if a = pool then new_seq else s1.allowance_exp a }
        match set_backstop_emission_eps s2 env pool pool_balance new_backstop_emissions with
        | .error e => .error e
        | .ok s3 => .ok (s3, (new_backstop_emissions, new_pool_emissions))
      | _, _ => .error .UnwrapPanic
    else
      .ok (s1, (0, 0))

/-- `Vec::first_index_of`: index of the first occurrence, if any. -/
def first_index_of (l : List Addr) (a : Addr) : Option Nat :=
  match l with
  | [] => none
  | x :: xs => if x = a then some 0 else (first_index_of xs a).map (· + 1)

/-- `remove_pool` (manager.rs line 81): drop a pool from the reward zone list,
guarding on a distribution within the last 24 hours, and park its emission
record at the `i128::MAX` sentinel index. Returns the updated state and list. -/
def remove_pool (s : BackstopState) (env : HostEnv) (reward_zone : List Addr)
    (to_remove : Addr) : Except ContractError (BackstopState × List Addr) :=
  match first_index_of reward_zone to_remove with
  | none => .error .InvalidRewardZoneEntry
  | some idx =>
    -- `timestamp - 24*60*60` is a checked u64 subtraction
    if env.timestamp < 24 * 60 * 60 then .error .ArithPanic
    else if s.last_distribution < env.timestamp - 24 * 60 * 60 then .error .BadRequest
    else
      match s.rz_emis to_remove with
      | none => .error .UnwrapPanic
      | some to_remove_emis_data =>
        let (s1, _) := set_rz_emissions s to_remove I128_MAX to_remove_emis_data.accrued false
        .ok (s1, reward_zone.eraseIdx idx)

/-- `remove_from_reward_zone` (manager.rs line 66): remove a pool that has
fallen below the deposit threshold. -/
def remove_from_reward_zone (s : BackstopState) (env : HostEnv) (to_remove : Addr) :
    Except ContractError BackstopState :=
  let reward_zone := s.reward_zone
  if env.above_threshold to_remove then .error .BadRequest
  else
    match remove_pool s env reward_zone to_remove with
    | .error e => .error e
    | .ok (s1, rz1) => .ok { s1 with reward_zone := rz1 }

/-- `add_to_reward_zone` (manager.rs line 18): insert a pool, swapping out
`to_remove` when the zone is full, and pin the pool's emission index to the
current global index. -/
def add_to_reward_zone (s : BackstopState) (env : HostEnv) (to_add : Addr)
    (to_remove : Option Addr) : Except ContractError BackstopState :=
  let reward_zone := s.reward_zone
  let rz_emission_index := s.rz_emission_index
  if to_add ∈ reward_zone then .error .BadRequest
  else if ¬ env.above_threshold to_add then .error .InvalidRewardZoneEntry
  else
    let inserted : Except ContractError (BackstopState × List Addr) :=
      if reward_zone.length < MAX_RZ_SIZE then .ok (s, to_add :: reward_zone)
      else
        match to_remove with
        | none => .error .RewardZoneFull
        | some to_remove =>
          if (s.pool_balance to_add).tokens ≤ (s.pool_balance to_remove).tokens then
            .error .InvalidRewardZoneEntry
          else
            match remove_pool s env reward_zone to_remove with
            | .error e => .error e
            | .ok (s1, rz1) => .ok (s1, to_add :: rz1)
    match inserted with
    | .error e => .error e
    | .ok (s1, rz1) =>
      let s2 :=
        match s1.rz_emis to_add with
        | some to_add_emis_data =>
          (set_rz_emissions s1 to_add rz_emission_index to_add_emis_data.accrued false).1
        | none => (set_rz_emissions s1 to_add rz_emission_index 0 false).1
      .ok { s2 with reward_zone := rz1 }

/-- `distribute` (manager.rs line 103): advance the global reward zone emission
index by the Emitter's stream since the last distribution (1 token/second),
tracking backfilled emissions while the Emitter does not recognise this
backstop. Returns the new emissions. -/
def distribute (s : BackstopState) (env : HostEnv) :
    Except ContractError (BackstopState × Int) :=
  let last_backfill_status := s.backfill_status
  let is_backfill := env.emitter_distro.isNone
  let needs_reset := env.emitter_distro.isSome ∧ last_backfill_status = some true
  let s0 : BackstopState :=
    match env.emitter_distro with
    | some _ =>
      if last_backfill_status = some true then { s with backfill_status := some false } else s
    | none =>
      if last_backfill_status = none then { s with backfill_status := some true } else s
  let emitter_last_distribution :=
    match env.emitter_distro with
    | some distro => distro
    | none => env.timestamp
  let last_distribution := s.last_distribution
  if last_distribution = 0 then
    .ok ({ s0 with last_distribution := emitter_last_distribution }, 0)
  else if needs_reset then
    .ok ({ s0 with last_distribution := emitter_last_distribution }, 0)
  else
    let reward_zone := s.reward_zone
    if reward_zone.length = 0 then .error .BadRequest
    else if emitter_last_distribution ≤ last_distribution + 60 * 60 then .error .BadRequest
    else
      let new_emissions : Int :=
        ((emitter_last_distribution - last_distribution : Nat) : Int) * SCALAR_7
      let backfilled : Except ContractError BackstopState :=
        if is_backfill then
          let cur_backfill := s0.backfill_emissions + new_emissions
          if cur_backfill > MAX_BACKFILLED_EMISSIONS then .error .MaxBackfillEmissions
          else .ok { s0 with backfill_emissions := cur_backfill }
        else .ok s0
      match backfilled with
      | .error e => .error e
      | .ok s1 =>
        let s2 := { s1 with last_distribution := emitter_last_distribution }
        let prev_index := s2.rz_emission_index
        let total_non_queued_tokens :=
          (reward_zone.map (fun p => (s2.pool_balance p).non_queued_tokens)).sum
        match fixed_div_floor new_emissions total_non_queued_tokens SCALAR_14 with
        | none => .error .UnwrapPanic
        | some additional_index =>
          .ok ({ s2 with rz_emission_index := prev_index + additional_index }, new_emissions)


/-! ### Concrete states used to instantiate the claims -/

/-- An empty backstop state. -/
def baseState : BackstopState :=
  { reward_zone := []
    rz_emission_index := 0
    rz_emis := fun _ => none
    backstop_emis := fun _ => none
    pool_balance := fun _ => { shares := 0, tokens := 0, q4w := 0 }
    last_distribution := 0
    backfill_status := none
    backfill_emissions := 0
    allowance := fun _ => 0
    allowance_exp := fun _ => 0 }

/-- Spec scenario S1: reward zone of three pools with 300k / 200k / 500k
non-queued tokens (7 decimals) and a prior global index of 0. -/
def S1_state : BackstopState :=
  { baseState with
    reward_zone := [1, 2, 3]
    last_distribution := 1000000
    pool_balance := fun a =>
      if a = 1 then { shares := 2000000000000, tokens := 3000000000000, q4w := 0 }
      else if a = 2 then { shares := 1500000000000, tokens := 2000000000000, q4w := 0 }
      else if a = 3 then { shares := 6000000000000, tokens := 5000000000000, q4w := 0 }
      else { shares := 0, tokens := 0, q4w := 0 } }

/-- Spec scenario S1 environment: the Emitter acknowledges a distribution
86 400 seconds after the stored `last_distribution`. -/
def S1_env : HostEnv :=
  { timestamp := 1086400, sequence := 0, emitter_distro := some 1086400
    above_threshold := fun _ => true }

/-- The state `distribute` produces on scenario S1. -/
def S1_state' : BackstopState :=
  { S1_state with last_distribution := 1086400, rz_emission_index := 8640000000000 }

/-- A state mid-backfill (`backfill_status = some true`). -/
def C5_state : BackstopState :=
  { baseState with
    reward_zone := [1]
    rz_emission_index := 42
    last_distribution := 500
    backfill_status := some true
    backfill_emissions := 777 }

/-- Environment for the backfill-to-normal transition: the Emitter now
acknowledges this backstop. -/
def C5_env : HostEnv :=
  { timestamp := 10000, sequence := 0, emitter_distro := some 9999
    above_threshold := fun _ => true }

/-- A backfill run one day after the last distribution, single pool holding
10⁶ tokens (7 decimals). -/
def C6_state : BackstopState :=
  { baseState with
    reward_zone := [1]
    last_distribution := 1000000
    backfill_status := some true
    pool_balance := fun a =>
      if a = 1 then { shares := 1000000, tokens := 10000000000000, q4w := 0 }
      else { shares := 0, tokens := 0, q4w := 0 } }

/-- Environment for the backfill run: the Emitter does not recognise this
backstop, and 86 400 s have elapsed. -/
def C6_env : HostEnv :=
  { timestamp := 1086400, sequence := 0, emitter_distro := none
    above_threshold := fun _ => true }

/-- The state the backfill run of `distribute` produces on `C6_state`. -/
def C6_state' : BackstopState :=
  { C6_state with
    backfill_emissions := 864000000000
    last_distribution := 1086400
    rz_emission_index := 8640000000000 }

/-- A state whose emitter time sits exactly one hour past `last_distribution`:
the boundary case of the distribute time guard. -/
def C7_state : BackstopState :=
  { baseState with
    reward_zone := [1]
    last_distribution := 86400
    pool_balance := fun _ => { shares := 10, tokens := 10, q4w := 0 } }

/-- Emitter time exactly `last_distribution + 3600`. -/
def C7_env : HostEnv :=
  { timestamp := 90000, sequence := 0, emitter_distro := some 90000
    above_threshold := fun _ => true }

/-- Emitter time one second past the guard boundary. -/
def C7_env2 : HostEnv :=
  { timestamp := 90001, sequence := 0, emitter_distro := some 90001
    above_threshold := fun _ => true }

/-- C1: a pool evicted from the reward zone (index parked at `i128::MAX`)
holding `accrued = 100`, with zero non-queued tokens. -/
def C1_state : BackstopState :=
  { baseState with
    rz_emission_index := 5
    rz_emis := fun a =>
      if a = 1 then some { index := I128_MAX, accrued := 100 } else none }

/-- Environment for the evicted-pool gulp. -/
def C1_env : HostEnv :=
  { timestamp := 1000, sequence := 7, emitter_distro := none
    above_threshold := fun _ => true }

/-- C1: the same evicted pool, but still holding non-queued tokens. -/
def C1b_state : BackstopState :=
  { C1_state with
    pool_balance := fun a =>
      if a = 1 then { shares := 5, tokens := 10, q4w := 0 }
      else { shares := 0, tokens := 0, q4w := 0 } }

/-- Spec scenario S2: pool 1 with 300k·10⁷ non-queued tokens, stored index 0,
global index 8.64·10¹², and a pre-existing allowance of 5. -/
def C3_state : BackstopState :=
  { baseState with
    rz_emission_index := 8640000000000
    rz_emis := fun a => if a = 1 then some { index := 0, accrued := 0 } else none
    pool_balance := fun a =>
      if a = 1 then { shares := 2000000000000, tokens := 3000000000000, q4w := 0 }
      else { shares := 0, tokens := 0, q4w := 0 }
    allowance := fun a => if a = 1 then 5 else 0 }

/-- Environment for the S2 gulp. -/
def C3_env : HostEnv :=
  { timestamp := 1713139200, sequence := 100, emitter_distro := none
    above_threshold := fun _ => true }

/-- C4: pool 1 with an ongoing EPS window (1000 s left, eps 0.1 in 14-decimal
form) and a stale index/last_time 12345 s old. -/
def C4_state : BackstopState :=
  { baseState with
    backstop_emis := fun a =>
      if a = 1 then
        some { eps := 10000000000000, expiration := 1713140200
               index := 8877660000000, last_time := 1713126855 }
      else none }

/-- Environment for the EPS re-installation. -/
def C4_env : HostEnv :=
  { timestamp := 1713139200, sequence := 0, emitter_distro := none
    above_threshold := fun _ => true }

/-- Pool balance used for the C4 witness (200k·10⁷ shares). -/
def C4_pb : PoolBalance :=
  { shares := 2000000000000, tokens := 3000000000000, q4w := 0 }

/-- The state after the realise step of the S2 gulp. -/
def C3_s1 : BackstopState :=
  C3_state.with_rz_emis 1 { index := 8640000000000, accrued := 0 }

/-- The state the S2 gulp produces: allowance grown by the 30 % share and a
fresh EPS window installed from the 70 % share. -/
def C3_state' : BackstopState :=
  ({ C3_s1 with
     allowance := fun a => if a = 1 then 5 + 77760000000 else C3_s1.allowance a
     allowance_exp := fun a =>
       if a = 1 then 100 + LEDGER_BUMP_USER else C3_s1.allowance_exp a }).with_backstop_emis
    1 { eps := 3000000000000, expiration := 1713139200 + 7 * 24 * 60 * 60
        index := 0, last_time := 1713139200 }

/-- The record `set_backstop_emission_eps` stores on the C4 scenario: index
advanced by 12345 s of the old 0.1 eps over 200k shares, plus a fresh 7-day
window over 127 008 tokens and the 1000-second carry-over. -/
def C4_state' : BackstopState :=
  C4_state.with_backstop_emis 1
    { eps := 21016534391534, expiration := 1713139200 + 7 * 24 * 60 * 60
      index := 9494910000000, last_time := 1713139200 }

/-- C8/C10: a state whose last distribution is exactly 24 h old relative to
`C8_env`, with an emission record for pool 1. -/
def C8_state : BackstopState :=
  { baseState with
    reward_zone := [4, 1, 9]
    last_distribution := 113600
    rz_emis := fun a =>
      if a = 1 then some { index := 12340000000, accrued := 55 } else none }

/-- Environment at timestamp 200 000 (`200000 - 86400 = 113600`). -/
def C8_env : HostEnv :=
  { timestamp := 200000, sequence := 0, emitter_distro := none
    above_threshold := fun _ => false }

/-- C10: same situation but pool 1 has no `RzEmissionData` record. -/
def C10_state : BackstopState :=
  { baseState with reward_zone := [4, 1, 9], last_distribution := 113600 }

/-- C9: a two-pool reward zone about to receive pool 1. -/
def C9_state : BackstopState :=
  { baseState with reward_zone := [2, 3], rz_emission_index := 9 }

/-- Environment where every pool passes the deposit threshold. -/
def C9_env : HostEnv :=
  { timestamp := 0, sequence := 0, emitter_distro := none
    above_threshold := fun _ => true }

/-- The state `add_to_reward_zone` produces on `C9_state`: pool 1 prepended,
its emission index pinned to the current global index 9. -/
def C9_state' : BackstopState :=
  { C9_state.with_rz_emis 1 { index := 9, accrued := 0 } with reward_zone := [1, 2, 3] }

/-! ### Characterisation lemmas for `distribute` -/

/-- Total non-queued tokens over the reward zone, as summed by `distribute`. -/
def rz_total_non_queued (s : BackstopState) : Int :=
  (s.reward_zone.map fun p => (s.pool_balance p).non_queued_tokens).sum

lemma distribute_normal_run (s : BackstopState) (env : HostEnv) (te : Nat)
    (he : env.emitter_distro = some te)
    (h0 : s.last_distribution ≠ 0)
    (hb : s.backfill_status ≠ some true)
    (hrz : s.reward_zone.length ≠ 0)
    (ht : s.last_distribution + 60 * 60 < te) :
    distribute s env =
      match fixed_div_floor (((te - s.last_distribution : Nat) : Int) * SCALAR_7)
          (rz_total_non_queued s) SCALAR_14 with
      | none => .error .UnwrapPanic
      | some additional_index =>
        .ok ({ s with last_distribution := te,
                      rz_emission_index := s.rz_emission_index + additional_index },
          ((te - s.last_distribution : Nat) : Int) * SCALAR_7) := by
  simp only [distribute, he, Option.isNone_some, Option.isSome_some, rz_total_non_queued]
  rw [if_neg hb, if_neg h0, if_neg (by simp [hb]), if_neg hrz, if_neg (by omega)]
  simp only [Bool.false_eq_true, if_false]


/-! ### Helper lemmas on the fixed-point primitives -/

lemma fixed_div_floor_eq_some {x y d a : Int} (h : fixed_div_floor x y d = some a) :
    a = Int.fdiv (x * d) y := by
  unfold fixed_div_floor checked_mul at h
  by_cases hf : fitsI128 (x * d)
  · rw [if_pos hf] at h
    by_cases hy : y = 0
    · simp [hy] at h
    · simp only [hy, if_false] at h
      exact (Option.some_inj.mp h).symm
  · simp [if_neg hf] at h

lemma fixed_mul_floor_eq_some {x y d a : Int} (h : fixed_mul_floor x y d = some a) :
    a = Int.fdiv (x * y) d := by
  unfold fixed_mul_floor checked_mul at h
  by_cases hf : fitsI128 (x * y)
  · rw [if_pos hf] at h
    by_cases hd : d = 0
    · simp [hd] at h
    · simp only [hd, if_false] at h
      exact (Option.some_inj.mp h).symm
  · simp [if_neg hf] at h

lemma u64_cast_eq_some {x a : Int} (h : u64_cast x = some a) : a = x := by
  unfold u64_cast at h
  by_cases hb : 0 ≤ x ∧ x ≤ 18446744073709551615
  · rw [if_pos hb] at h
    exact (Option.some_inj.mp h).symm
  · simp [if_neg hb] at h

/-! ### More characterisation lemmas for `distribute` -/

lemma distribute_guard_err (s : BackstopState) (env : HostEnv) (te : Nat)
    (he : env.emitter_distro = some te)
    (h0 : s.last_distribution ≠ 0)
    (hb : s.backfill_status ≠ some true)
    (h : s.reward_zone.length = 0 ∨ te ≤ s.last_distribution + 60 * 60) :
    distribute s env = .error .BadRequest := by
  simp only [distribute, he, Option.isNone_some, Option.isSome_some]
  rw [if_neg hb, if_neg h0, if_neg (by simp [hb])]
  by_cases hrz : s.reward_zone.length = 0
  · rw [if_pos hrz]
  · have ht := h.resolve_left hrz
    rw [if_neg hrz, if_pos ht]

lemma distribute_backfill_run (s : BackstopState) (env : HostEnv)
    (he : env.emitter_distro = none)
    (h0 : s.last_distribution ≠ 0)
    (hrz : s.reward_zone.length ≠ 0)
    (ht : s.last_distribution + 60 * 60 < env.timestamp) :
    distribute s env =
      (if s.backfill_emissions +
            ((env.timestamp - s.last_distribution : Nat) : Int) * SCALAR_7 >
          MAX_BACKFILLED_EMISSIONS then
        .error .MaxBackfillEmissions
      else
        match fixed_div_floor
            (((env.timestamp - s.last_distribution : Nat) : Int) * SCALAR_7)
            (rz_total_non_queued s) SCALAR_14 with
        | none => .error .UnwrapPanic
        | some additional_index =>
          .ok ({ reward_zone := s.reward_zone
                 rz_emission_index := s.rz_emission_index + additional_index
                 rz_emis := s.rz_emis
                 backstop_emis := s.backstop_emis
                 pool_balance := s.pool_balance
                 last_distribution := env.timestamp
                 backfill_status :=
                   if s.backfill_status = none then some true else s.backfill_status
                 backfill_emissions := s.backfill_emissions +
                   ((env.timestamp - s.last_distribution : Nat) : Int) * SCALAR_7
                 allowance := s.allowance
                 allowance_exp := s.allowance_exp },
            ((env.timestamp - s.last_distribution : Nat) : Int) * SCALAR_7)) := by
  simp only [distribute, he, Option.isNone_none, Option.isSome_none, rz_total_non_queued]
  rw [if_neg h0, if_neg (by simp), if_neg hrz, if_neg (by omega)]
  by_cases hbs : s.backfill_status = none
  · simp only [if_pos hbs]
    by_cases hcap : s.backfill_emissions +
        ((env.timestamp - s.last_distribution : Nat) : Int) * SCALAR_7 >
        MAX_BACKFILLED_EMISSIONS
    · simp [hcap]
    · simp [hcap]
  · simp only [if_neg hbs]
    by_cases hcap : s.backfill_emissions +
        ((env.timestamp - s.last_distribution : Nat) : Int) * SCALAR_7 >
        MAX_BACKFILLED_EMISSIONS
    · simp [hcap]
    · simp [hcap]


/-! ### Claim C5 -/

/-- C5: if the previous `distribute` run was a backfill run
(`backfill_status = some true`) and the current run is Emitter-acknowledged,
`distribute` sets `last_distribution` to the emitter's time, records the
backfill as ended (`backfill_status = some false`), and returns 0, leaving
`rz_emission_index` and the backfill accumulator (and everything else)
unchanged: the emissions in the gap are discarded. -/
theorem C5_backfill_reset (s : BackstopState) (env : HostEnv) (te : Nat)
    (he : env.emitter_distro = some te)
    (hb : s.backfill_status = some true) :
    distribute s env =
      .ok ({ s with backfill_status := some false, last_distribution := te }, 0) := by
  simp only [distribute, he, Option.isNone_some, Option.isSome_some, hb]
  by_cases h0 : s.last_distribution = 0 <;> simp [h0]

/-- C5 witness: the transition at a concrete mid-backfill state. -/
theorem C5_backfill_reset_witness :
    distribute C5_state C5_env =
      .ok ({ C5_state with backfill_status := some false, last_distribution := 9999 }, 0) :=
  C5_backfill_reset C5_state C5_env 9999 rfl rfl

/-! ### Claim C2 -/

/-- C2: every successful non-bootstrap, non-reset, Emitter-acknowledged call
to `distribute` advances `rz_emission_index` by exactly
`floor(((emitter_time − last_distribution) · SCALAR_7) · SCALAR_14 / Σ)` where
`Σ` is the sum of non-queued tokens over the reward zone, and persists
`last_distribution = emitter_time`; on spec scenario S1 (pools with
300k/200k/500k tokens, an 86 400 s gap, prior index 0) the new index is
exactly `8_640_000_000_000`. -/
theorem C2_distribute_index_advance (s : BackstopState) (env : HostEnv) (te : Nat)
    (s' : BackstopState) (r : Int)
    (he : env.emitter_distro = some te)
    (h0 : s.last_distribution ≠ 0)
    (hb : s.backfill_status ≠ some true)
    (hok : distribute s env = .ok (s', r)) :
    s'.rz_emission_index = s.rz_emission_index +
      Int.fdiv ((((te : Int) - (s.last_distribution : Int)) * SCALAR_7) * SCALAR_14)
        (rz_total_non_queued s) ∧
    s'.last_distribution = te ∧
    distribute S1_state S1_env = .ok (S1_state', 86400 * SCALAR_7) ∧
    S1_state'.rz_emission_index = 8640000000000 := by
  have key : s'.rz_emission_index = s.rz_emission_index +
      Int.fdiv ((((te : Int) - (s.last_distribution : Int)) * SCALAR_7) * SCALAR_14)
        (rz_total_non_queued s) ∧
      s'.last_distribution = te := ?_
  · exact ⟨key.1, key.2, rfl, rfl⟩
  by_cases hrz : s.reward_zone.length = 0
  · rw [distribute_guard_err s env te he h0 hb (Or.inl hrz)] at hok
    cases hok
  by_cases hts : te ≤ s.last_distribution + 60 * 60
  · rw [distribute_guard_err s env te he h0 hb (Or.inr hts)] at hok
    cases hok
  have ht : s.last_distribution + 60 * 60 < te := by omega
  rw [distribute_normal_run s env te he h0 hb hrz ht] at hok
  rcases hfd : fixed_div_floor (((te - s.last_distribution : Nat) : Int) * SCALAR_7)
      (rz_total_non_queued s) SCALAR_14 with _ | additional_index
  · rw [hfd] at hok
    cases hok
  · rw [hfd] at hok
    have h1 : ({ s with last_distribution := te,
                        rz_emission_index := s.rz_emission_index + additional_index },
        ((te - s.last_distribution : Nat) : Int) * SCALAR_7) = (s', r) :=
      Except.ok.inj hok
    have hs' : ({ s with last_distribution := te,
                         rz_emission_index := s.rz_emission_index + additional_index } :
        BackstopState) = s' := congrArg Prod.fst h1
    have hadd := fixed_div_floor_eq_some hfd
    have hcast : ((te - s.last_distribution : Nat) : Int) =
        (te : Int) - (s.last_distribution : Int) := by
      omega
    subst hs'
    refine ⟨?_, rfl⟩
    simp only [hadd, hcast]

/-- C2 witness: the theorem applied on spec scenario S1. -/
theorem C2_distribute_index_advance_witness :
    S1_state'.rz_emission_index = S1_state.rz_emission_index +
      Int.fdiv ((((1086400 : Int) - (S1_state.last_distribution : Int)) * SCALAR_7) *
        SCALAR_14) (rz_total_non_queued S1_state) ∧
    S1_state'.last_distribution = 1086400 :=
  ⟨(C2_distribute_index_advance S1_state S1_env 1086400 S1_state' (86400 * SCALAR_7)
      rfl (by decide) (by decide) rfl).1,
   (C2_distribute_index_advance S1_state S1_env 1086400 S1_state' (86400 * SCALAR_7)
      rfl (by decide) (by decide) rfl).2.1⟩


/-! ### Claim C6 -/

/-- C6: during a backfill run of `distribute` (Emitter unregistered,
non-bootstrap, guards passed), the new emissions
`(timestamp − last_distribution) · SCALAR_7` are added to the backfill
accumulator, and the run fails with `MaxBackfillEmissions` exactly when the
updated accumulator would exceed `MAX_BACKFILLED_EMISSIONS`; a successful run
persists the updated accumulator and returns the new emissions. (In the
model, as on the Soroban host, an error carries no state: the abort is
atomic by construction.) -/
theorem C6_backfill_cap (s : BackstopState) (env : HostEnv)
    (he : env.emitter_distro = none)
    (h0 : s.last_distribution ≠ 0)
    (hrz : s.reward_zone.length ≠ 0)
    (ht : s.last_distribution + 60 * 60 < env.timestamp)
    (s' : BackstopState) (r : Int) :
    (distribute s env = .error .MaxBackfillEmissions ↔
      s.backfill_emissions +
        ((env.timestamp - s.last_distribution : Nat) : Int) * SCALAR_7 >
        MAX_BACKFILLED_EMISSIONS) ∧
    (distribute s env = .ok (s', r) →
      s'.backfill_emissions = s.backfill_emissions +
        ((env.timestamp - s.last_distribution : Nat) : Int) * SCALAR_7 ∧
      r = ((env.timestamp - s.last_distribution : Nat) : Int) * SCALAR_7) := by
  rw [distribute_backfill_run s env he h0 hrz ht]
  by_cases hcap : s.backfill_emissions +
      ((env.timestamp - s.last_distribution : Nat) : Int) * SCALAR_7 >
      MAX_BACKFILLED_EMISSIONS
  · rw [if_pos hcap]
    exact ⟨by simp [hcap], by intro h; cases h⟩
  · rw [if_neg hcap]
    constructor
    · rcases hfd : fixed_div_floor
          (((env.timestamp - s.last_distribution : Nat) : Int) * SCALAR_7)
          (rz_total_non_queued s) SCALAR_14 with _ | additional_index
      · simp [hcap]
      · simp [hcap]
    · intro hok
      rcases hfd : fixed_div_floor
          (((env.timestamp - s.last_distribution : Nat) : Int) * SCALAR_7)
          (rz_total_non_queued s) SCALAR_14 with _ | additional_index
      · rw [hfd] at hok
        cases hok
      · rw [hfd] at hok
        have h1 := Except.ok.inj hok
        have hs' : ({ reward_zone := s.reward_zone
                      rz_emission_index := s.rz_emission_index + additional_index
                      rz_emis := s.rz_emis
                      backstop_emis := s.backstop_emis
                      pool_balance := s.pool_balance
                      last_distribution := env.timestamp
                      backfill_status :=
                        if s.backfill_status = none then some true else s.backfill_status
                      backfill_emissions := s.backfill_emissions +
                        ((env.timestamp - s.last_distribution : Nat) : Int) * SCALAR_7
                      allowance := s.allowance
                      allowance_exp := s.allowance_exp } : BackstopState) = s' :=
          congrArg Prod.fst h1
        have hr : ((env.timestamp - s.last_distribution : Nat) : Int) * SCALAR_7 = r :=
          congrArg Prod.snd h1
        refine ⟨?_, hr.symm⟩
        rw [← hs']

/-- C6 witness: a concrete backfill run one day long, below the cap. -/
theorem C6_backfill_cap_witness :
    (distribute C6_state C6_env = .error .MaxBackfillEmissions ↔
      C6_state.backfill_emissions +
        ((C6_env.timestamp - C6_state.last_distribution : Nat) : Int) * SCALAR_7 >
        MAX_BACKFILLED_EMISSIONS) ∧
    C6_state'.backfill_emissions = C6_state.backfill_emissions +
      ((C6_env.timestamp - C6_state.last_distribution : Nat) : Int) * SCALAR_7 :=
  ⟨(C6_backfill_cap C6_state C6_env rfl (by decide) (by decide) (by decide)
      C6_state' (86400 * SCALAR_7)).1,
   ((C6_backfill_cap C6_state C6_env rfl (by decide) (by decide) (by decide)
      C6_state' (86400 * SCALAR_7)).2 rfl).1⟩

/-! ### Claim C7 -/

/-- C7 counterexample: with a non-empty reward zone and the emitter's time
exactly one hour (3600 s) beyond `last_distribution` — so "at least one hour
beyond" holds — `distribute` still fails with `BadRequest`, contradicting the
claim that it only fails when the reward zone is empty or the emitter's time
is not at least one hour beyond the stored `last_distribution`. -/
theorem C7_guard_counterexample :
    distribute C7_state C7_env = .error .BadRequest ∧
    ¬(C7_state.reward_zone.length = 0 ∨
      ¬(C7_state.last_distribution + 60 * 60 ≤ 90000)) := by
  exact ⟨rfl, by decide⟩

/-- C7 (amended): after the bootstrap and backfill-reset branches, an
Emitter-acknowledged `distribute` fails with `BadRequest` exactly when the
reward zone is empty or the emitter's last distribution time is not MORE than
one hour beyond the stored `last_distribution` (the boundary
`emitter_time = last_distribution + 3600` also fails); otherwise it proceeds
to compute emissions. -/
theorem C7_guard (s : BackstopState) (env : HostEnv) (te : Nat)
    (he : env.emitter_distro = some te)
    (h0 : s.last_distribution ≠ 0)
    (hb : s.backfill_status ≠ some true) :
    distribute s env = .error .BadRequest ↔
      (s.reward_zone.length = 0 ∨ te ≤ s.last_distribution + 60 * 60) := by
  constructor
  · intro herr
    by_contra hcon
    push_neg at hcon
    obtain ⟨hrz, hts⟩ := hcon
    have ht : s.last_distribution + 60 * 60 < te := by omega
    rw [distribute_normal_run s env te he h0 hb hrz ht] at herr
    rcases hfd : fixed_div_floor (((te - s.last_distribution : Nat) : Int) * SCALAR_7)
        (rz_total_non_queued s) SCALAR_14 with _ | additional_index
    · rw [hfd] at herr
      cases herr
    · rw [hfd] at herr
      cases herr
  · exact distribute_guard_err s env te he h0 hb

/-- C7 witness: the amended guard evaluated one second past the boundary,
where `distribute` does not raise `BadRequest`. -/
theorem C7_guard_witness :
    distribute C7_state C7_env2 = .error .BadRequest ↔
      (C7_state.reward_zone.length = 0 ∨ 90001 ≤ C7_state.last_distribution + 60 * 60) :=
  C7_guard C7_state C7_env2 90001 rfl (by decide) (by decide)


/-! ### Preservation lemmas for the gulp pipeline -/

lemma update_rz_emis_data_fields {s : BackstopState} {p : Addr} {g : Bool}
    {s1 : BackstopState} {n : Int} (h : update_rz_emis_data s p g = .ok (s1, n)) :
    s1.allowance = s.allowance ∧ s1.allowance_exp = s.allowance_exp ∧
    s1.pool_balance = s.pool_balance ∧ s1.backstop_emis = s.backstop_emis ∧
    s1.rz_emission_index = s.rz_emission_index ∧ s1.reward_zone = s.reward_zone := by
  simp only [update_rz_emis_data, set_rz_emissions] at h
  repeat' split at h
  all_goals cases h
  all_goals exact ⟨rfl, rfl, rfl, rfl, rfl, rfl⟩

lemma set_backstop_emission_eps_fields {s : BackstopState} {env : HostEnv} {p : Addr}
    {pb : PoolBalance} {nt : Int} {s' : BackstopState}
    (h : set_backstop_emission_eps s env p pb nt = .ok s') :
    s'.rz_emis = s.rz_emis ∧ s'.allowance = s.allowance ∧
    s'.allowance_exp = s.allowance_exp ∧ s'.reward_zone = s.reward_zone ∧
    s'.rz_emission_index = s.rz_emission_index := by
  simp only [set_backstop_emission_eps] at h
  repeat' split at h
  all_goals cases h
  all_goals exact ⟨rfl, rfl, rfl, rfl, rfl⟩

/-! ### Claim C1 -/

/-- C1 (amended): for a pool evicted from the reward zone
(`RzEmissionData.index = i128::MAX`) holding accrued emissions `a`, a later
`gulp_emissions` does NOT leave the index at the sentinel. If the pool's
non-queued tokens are zero, the realise step returns the stored `a`, resets
`accrued` to 0, and OVERWRITES the index with the current global index (so the
pool resumes accruing from it); any successful gulp therefore stores the
current global index. If the pool's non-queued tokens are at least 2 (and the
global index is below `2^126 − 1`), the emission delta
`non_queued · (global_index − i128::MAX)` overflows `i128` and the call aborts
with a panic instead of returning the accrued amount. -/
theorem C1_evicted_gulp (s : BackstopState) (env : HostEnv) (p : Addr) (a : Int)
    (hd : s.rz_emis p = some { index := I128_MAX, accrued := a }) :
    ((s.pool_balance p).non_queued_tokens = 0 →
      update_rz_emis_data s p true =
        .ok (s.with_rz_emis p { index := s.rz_emission_index, accrued := 0 }, a)) ∧
    ((s.pool_balance p).non_queued_tokens = 0 →
      ∀ s' r, gulp_emissions s env p = .ok (s', r) →
        s'.rz_emis p = some { index := s.rz_emission_index, accrued := 0 }) ∧
    (2 ≤ (s.pool_balance p).non_queued_tokens → 0 ≤ s.rz_emission_index →
      s.rz_emission_index < 2 ^ 126 - 1 →
      gulp_emissions s env p = .error .UnwrapPanic) := by
  have hupd : (s.pool_balance p).non_queued_tokens = 0 →
      update_rz_emis_data s p true =
        .ok (s.with_rz_emis p { index := s.rz_emission_index, accrued := 0 }, a) := by
    intro hnq
    simp only [update_rz_emis_data, hd]
    rw [if_pos (Or.inr trivial), if_neg (by simp [hnq])]
    simp [set_rz_emissions]
  refine ⟨hupd, ?_, ?_⟩
  · intro hnq s' r hok
    simp only [gulp_emissions, hupd hnq] at hok
    by_cases ha : a > 0
    · rw [if_pos ha] at hok
      split at hok
      · rename_i nb np hm1 hm2
        split at hok
        · cases hok
        · rename_i s3 heps
          cases hok
          have hfields := set_backstop_emission_eps_fields heps
          rw [hfields.1]
          simp [BackstopState.with_rz_emis]
      · cases hok
    · rw [if_neg ha] at hok
      cases hok
      simp [BackstopState.with_rz_emis]
  · intro hnq hge hlt
    have hneg : s.rz_emission_index - I128_MAX ≤ 0 := by
      simp only [I128_MAX] at *
      omega
    have hmul : (s.pool_balance p).non_queued_tokens *
        (s.rz_emission_index - I128_MAX) ≤ 2 * (s.rz_emission_index - I128_MAX) :=
      mul_le_mul_of_nonpos_right hnq hneg
    have hnofit : ¬ fitsI128 ((s.pool_balance p).non_queued_tokens *
        (s.rz_emission_index - I128_MAX)) := by
      simp only [fitsI128, I128_MIN, I128_MAX] at *
      omega
    have hmf : fixed_mul_floor (s.pool_balance p).non_queued_tokens
        (s.rz_emission_index - I128_MAX) SCALAR_14 = none := by
      simp [fixed_mul_floor, checked_mul, hnofit]
    have hupdate : update_rz_emis_data s p true = .error .UnwrapPanic := by
      simp only [update_rz_emis_data, hd]
      rw [if_pos (Or.inr trivial), if_pos (by omega)]
      simp only [hmf]
    simp only [gulp_emissions, hupdate]

set_option maxRecDepth 4000 in
/-- C1 counterexample: on a concrete evicted pool with `accrued = 100`,
zero non-queued tokens and global index 5, `gulp_emissions` succeeds,
splits the 100 into (70, 30), zeroes `accrued` — but stores index 5, not
`i128::MAX`, contradicting "leaves the pool's index at MAX_INT". -/
theorem C1_evicted_gulp_counterexample :
    (gulp_emissions C1_state C1_env 1).map (fun x => (x.1.rz_emis 1, x.2)) =
      .ok (some { index := 5, accrued := 0 }, (70, 30)) ∧
    (5 : Int) ≠ I128_MAX := by
  exact ⟨rfl, by decide⟩

set_option maxRecDepth 4000 in
/-- C1 witness: the amended theorem instantiated — the zero-token evicted pool
realises its accrued 100 and gets index 5 (the current global index), while
the evicted pool still holding tokens panics on overflow. -/
theorem C1_evicted_gulp_witness :
    update_rz_emis_data C1_state 1 true =
      .ok (C1_state.with_rz_emis 1 { index := 5, accrued := 0 }, 100) ∧
    gulp_emissions C1b_state C1_env 1 = .error .UnwrapPanic :=
  ⟨(C1_evicted_gulp C1_state C1_env 1 100 rfl).1 rfl,
   (C1_evicted_gulp C1b_state C1_env 1 100 rfl).2.2 (by decide) (by decide) (by decide)⟩


/-! ### Claim C3 -/

/-- C3: whenever `gulp_emissions` realises a positive amount `d` of new
emissions for a pool, it returns the pair
`(floor(d · 0.7), floor(d · 0.3))` (in 7-decimal fixed point:
`fdiv (d·7000000) SCALAR_7` and `fdiv (d·3000000) SCALAR_7`), the first going
to the pool's backstop EPS allocator, and sets the pool's BLND allowance to
its previous allowance plus the 30 % share, with the approval expiring at
`sequence + LEDGER_BUMP_USER` (≈ 120 days of ledgers). -/
theorem C3_gulp_split (s : BackstopState) (env : HostEnv) (pool : Addr)
    (s1 : BackstopState) (d : Int) (s' : BackstopState) (r : Int × Int)
    (hup : update_rz_emis_data s pool true = .ok (s1, d))
    (hpos : 0 < d)
    (hok : gulp_emissions s env pool = .ok (s', r)) :
    r = (Int.fdiv (d * 7000000) SCALAR_7, Int.fdiv (d * 3000000) SCALAR_7) ∧
    s'.allowance pool = s.allowance pool + Int.fdiv (d * 3000000) SCALAR_7 ∧
    s'.allowance_exp pool = env.sequence + LEDGER_BUMP_USER := by
  simp only [gulp_emissions, hup] at hok
  rw [if_pos hpos] at hok
  split at hok
  · rename_i nb np hm1 hm2
    split at hok
    · cases hok
    · rename_i s3 heps
      cases hok
      have hfields := set_backstop_emission_eps_fields heps
      have hupf := update_rz_emis_data_fields hup
      have hnb := fixed_mul_floor_eq_some hm1
      have hnp := fixed_mul_floor_eq_some hm2
      refine ⟨by rw [hnb, hnp], ?_, ?_⟩
      · have h1 := congrFun hfields.2.1 pool
        simp only [if_pos] at h1
        rw [h1, hnp, congrFun hupf.1 pool]
      · have h1 := congrFun hfields.2.2.1 pool
        simp only [if_pos] at h1
        rw [h1]
  · cases hok

set_option maxRecDepth 4000 in
/-- C3 witness: spec scenario S2 — realised 259 200 000 000, split into
(181 440 000 000, 77 760 000 000), allowance accumulated on top of the
pre-existing 5. -/
theorem C3_gulp_split_witness :
    ((181440000000 : Int), (77760000000 : Int)) =
      (Int.fdiv (259200000000 * 7000000) SCALAR_7,
       Int.fdiv (259200000000 * 3000000) SCALAR_7) ∧
    C3_state'.allowance 1 = C3_state.allowance 1 +
      Int.fdiv (259200000000 * 3000000) SCALAR_7 ∧
    C3_state'.allowance_exp 1 = C3_env.sequence + LEDGER_BUMP_USER :=
  C3_gulp_split C3_state C3_env 1 C3_s1 259200000000 C3_state'
    (181440000000, 77760000000) rfl (by decide) rfl


/-! ### Claim C4 -/

/-- C4: when `set_backstop_emission_eps` installs a new EPS window for a pool,
the stored record has
`eps = (new_tokens + carry_over) · SCALAR_7 / (7·24·3600)` (floored), where
`carry_over = floor(prior_eps · (prior_expiration − now) / SCALAR_7)` if the
prior window has time left and 0 if there is no prior record or it expired;
`expiration = now + 7 days`; `last_time = now`; and the index first advanced
to `now` under the OLD eps (by `+ floor((min(now, expiration) − last_time) ·
eps · SCALAR_7 / shares)` when the old window still had unelapsed time,
positive shares and nonzero eps). -/
theorem C4_eps_window (s : BackstopState) (env : HostEnv) (p : Addr)
    (pb : PoolBalance) (nt : Int) (s' : BackstopState)
    (hok : set_backstop_emission_eps s env p pb nt = .ok s') :
    s'.backstop_emis p = some (
      match s.backstop_emis p with
      | none =>
        { eps := Int.tdiv (nt * SCALAR_7) (7 * 24 * 60 * 60)
          expiration := env.timestamp + 7 * 24 * 60 * 60
          index := 0
          last_time := env.timestamp }
      | some d =>
        { eps := Int.tdiv ((nt +
              (if env.timestamp < d.expiration then
                Int.fdiv (d.eps * ((d.expiration : Int) - (env.timestamp : Int))) SCALAR_7
               else 0)) * SCALAR_7) (7 * 24 * 60 * 60)
          expiration := env.timestamp + 7 * 24 * 60 * 60
          index :=
            if min env.timestamp d.expiration ≤ d.last_time ∨ pb.shares ≤ 0 ∨ d.eps = 0
            then d.index
            else d.index + Int.fdiv
              ((((min env.timestamp d.expiration : Nat) : Int) - (d.last_time : Int)) *
                d.eps * SCALAR_7) pb.shares
          last_time := env.timestamp }) := by
  simp only [set_backstop_emission_eps, update_emission_data] at hok
  rcases hbe : s.backstop_emis p with _ | d
  · rw [hbe] at hok
    simp only [] at hok
    split at hok
    · cases hok
    · rename_i eps0 hcast
      cases hok
      simp only [BackstopState.with_backstop_emis, if_pos]
      rw [u64_cast_eq_some hcast]
  · rw [hbe] at hok
    simp only [] at hok
    by_cases hg : min env.timestamp d.expiration ≤ d.last_time ∨ pb.shares ≤ 0 ∨ d.eps = 0
    · rw [if_pos hg] at hok
      simp only [] at hok
      by_cases hc : env.timestamp < d.expiration
      · rw [if_pos hc] at hok
        split at hok
        · cases hok
        · rename_i c hcarry
          rcases hm : fixed_mul_floor d.eps ((d.expiration - env.timestamp : Nat) : Int)
              SCALAR_7 with _ | t
          · rw [hm] at hcarry
            cases hcarry
          · rw [hm] at hcarry
            cases hcarry
            split at hok
            · cases hok
            · rename_i eps0 hcast
              cases hok
              simp only [BackstopState.with_backstop_emis, if_pos]
              rw [u64_cast_eq_some hcast, fixed_mul_floor_eq_some hm,
                if_pos hc, if_pos hg]
              have hcc : ((d.expiration - env.timestamp : Nat) : Int) =
                  (d.expiration : Int) - (env.timestamp : Int) := by omega
              rw [hcc]
      · rw [if_neg hc] at hok
        simp only [] at hok
        split at hok
        · cases hok
        · rename_i eps0 hcast
          cases hok
          simp only [BackstopState.with_backstop_emis, if_pos]
          rw [u64_cast_eq_some hcast, if_neg hc, if_pos hg]
    · rw [if_neg hg] at hok
      simp only [] at hok
      by_cases hc : env.timestamp < d.expiration
      · rw [if_pos hc] at hok
        split at hok
        · cases hok
        · rename_i c hcarry
          rcases hm : fixed_mul_floor d.eps ((d.expiration - env.timestamp : Nat) : Int)
              SCALAR_7 with _ | t
          · rw [hm] at hcarry
            cases hcarry
          · rw [hm] at hcarry
            cases hcarry
            split at hok
            · cases hok
            · rename_i eps0 hcast
              cases hok
              simp only [BackstopState.with_backstop_emis, if_pos]
              rw [u64_cast_eq_some hcast, fixed_mul_floor_eq_some hm,
                if_pos hc, if_neg hg]
              have hcc : ((d.expiration - env.timestamp : Nat) : Int) =
                  (d.expiration : Int) - (env.timestamp : Int) := by omega
              rw [hcc]
      · rw [if_neg hc] at hok
        simp only [] at hok
        split at hok
        · cases hok
        · rename_i eps0 hcast
          cases hok
          simp only [BackstopState.with_backstop_emis, if_pos]
          rw [u64_cast_eq_some hcast, if_neg hc, if_neg hg]


set_option maxRecDepth 4000 in
/-- C4 witness: the matching unit scenario — old window with 1000 s left at
eps 0.1 (14-decimal), new tokens 127 008·10⁷, stale index advanced by
617 250 000 000 before the new eps 0.21016534391534 takes effect. -/
theorem C4_eps_window_witness :
    C4_state'.backstop_emis 1 = some
      { eps := 21016534391534, expiration := 1713139200 + 7 * 24 * 60 * 60
        index := 9494910000000, last_time := 1713139200 } := by
  have h := C4_eps_window C4_state C4_env 1 C4_pb 1270080000000 C4_state' rfl
  exact h


/-! ### Lemmas on `first_index_of` and `remove_pool` -/

lemma first_index_of_lt_length {l : List Addr} {a : Addr} {i : Nat}
    (h : first_index_of l a = some i) : i < l.length := by
  induction l generalizing i with
  | nil => simp [first_index_of] at h
  | cons x xs ih =>
    simp only [first_index_of] at h
    by_cases hx : x = a
    · rw [if_pos hx] at h
      cases h
      simp
    · rw [if_neg hx] at h
      rcases hmap : first_index_of xs a with _ | j
      · rw [hmap] at h
        cases h
      · rw [hmap] at h
        simp only [Option.map_some'] at h
        cases h
        have := ih hmap
        simp only [List.length_cons]
        omega

lemma remove_pool_ok {s : BackstopState} {env : HostEnv} {rz : List Addr}
    {q : Addr} {s1 : BackstopState} {rz1 : List Addr}
    (h : remove_pool s env rz q = .ok (s1, rz1)) :
    ∃ i, first_index_of rz q = some i ∧ rz1 = rz.eraseIdx i ∧
      s1.reward_zone = s.reward_zone := by
  simp only [remove_pool, set_rz_emissions] at h
  rcases hidx : first_index_of rz q with _ | i
  · rw [hidx] at h
    cases h
  · rw [hidx] at h
    simp only [] at h
    refine ⟨i, rfl, ?_⟩
    split at h
    · cases h
    · split at h
      · cases h
      · split at h
        · cases h
        · have h2 : rz.eraseIdx i = rz1 := congrArg Prod.snd (Except.ok.inj h)
          have h3 : _ = s1 := congrArg Prod.fst (Except.ok.inj h)
          constructor
          · exact h2.symm
          · rw [← h3]
            rfl

/-! ### Claim C8 -/

/-- C8: for a pool present in the reward zone with an emission record,
`remove_pool` (the shared helper behind `remove_from_reward_zone` and the
full-zone eviction in `add_to_reward_zone`) fails with `BadRequest` when the
last global distribution is older than 24 hours; when the distribution is
fresh enough it succeeds, parking the pool's `RzEmissionData.index` at
`i128::MAX` while preserving its `accrued`, and dropping the pool from the
zone. -/
theorem C8_eviction_guard (s : BackstopState) (env : HostEnv) (rz : List Addr)
    (p : Addr) (i : Nat) (d : RzEmissionData)
    (hidx : first_index_of rz p = some i)
    (hts : 24 * 60 * 60 ≤ env.timestamp)
    (hd : s.rz_emis p = some d) :
    (s.last_distribution < env.timestamp - 24 * 60 * 60 →
      remove_pool s env rz p = .error .BadRequest) ∧
    (env.timestamp - 24 * 60 * 60 ≤ s.last_distribution →
      remove_pool s env rz p =
        .ok (s.with_rz_emis p { index := I128_MAX, accrued := d.accrued },
          rz.eraseIdx i)) := by
  constructor
  · intro hlate
    simp only [remove_pool, hidx]
    rw [if_neg (by omega), if_pos hlate]
  · intro hfresh
    simp only [remove_pool, hidx, hd]
    rw [if_neg (by omega), if_neg (by omega)]
    simp [set_rz_emissions]

/-- C8 witness: pool 1 removed from `[4, 1, 9]` with the last distribution
exactly 24 hours old — the boundary passes, the index parks at `i128::MAX`
and `accrued = 55` survives. -/
theorem C8_eviction_guard_witness :
    remove_pool C8_state C8_env [4, 1, 9] 1 =
      .ok (C8_state.with_rz_emis 1 { index := I128_MAX, accrued := 55 }, [4, 9]) :=
  (C8_eviction_guard C8_state C8_env [4, 1, 9] 1 1
      { index := 12340000000, accrued := 55 } rfl (by decide) rfl).2 (by decide)

/-! ### Claim C10 -/

/-- C10: removing a pool that is in the reward zone while it has no stored
`RzEmissionData` record aborts with the untyped `unwrap_optimized` panic
(once the 24 h freshness guard passes); conversely, whenever the record
exists the unwrap branch is unreachable — `remove_pool` never aborts with
that panic. The existence of a record for every reward-zone member is thus a
precondition of `remove_from_reward_zone` and of eviction during a full-zone
add. -/
theorem C10_missing_record_panics (s : BackstopState) (env : HostEnv)
    (rz : List Addr) (p : Addr) (i : Nat)
    (hidx : first_index_of rz p = some i)
    (hts : 24 * 60 * 60 ≤ env.timestamp) :
    (s.rz_emis p = none → env.timestamp - 24 * 60 * 60 ≤ s.last_distribution →
      remove_pool s env rz p = .error .UnwrapPanic) ∧
    (∀ d, s.rz_emis p = some d →
      remove_pool s env rz p ≠ .error .UnwrapPanic) := by
  constructor
  · intro hnone hfresh
    simp only [remove_pool, hidx, hnone]
    rw [if_neg (by omega), if_neg (by omega)]
  · intro d hd hcon
    simp only [remove_pool, hidx, hd] at hcon
    rw [if_neg (by omega)] at hcon
    by_cases hg : s.last_distribution < env.timestamp - 24 * 60 * 60
    · rw [if_pos hg] at hcon
      simp at hcon
    · rw [if_neg hg] at hcon
      simp [set_rz_emissions] at hcon

/-- C10 witness: the record-less pool panics, the recorded pool does not. -/
theorem C10_missing_record_panics_witness :
    remove_pool C10_state C8_env [4, 1, 9] 1 = .error .UnwrapPanic ∧
    remove_pool C8_state C8_env [4, 1, 9] 1 ≠ .error .UnwrapPanic :=
  ⟨(C10_missing_record_panics C10_state C8_env [4, 1, 9] 1 1 rfl (by decide)).1
      rfl (by decide),
   (C10_missing_record_panics C8_state C8_env [4, 1, 9] 1 1 rfl (by decide)).2
      { index := 12340000000, accrued := 55 } rfl⟩


/-! ### Claim C9 -/

lemma add_to_reward_zone_ok {s : BackstopState} {env : HostEnv} {to_add : Addr}
    {tr : Option Addr} {s' : BackstopState}
    (hok : add_to_reward_zone s env to_add tr = .ok s') :
    to_add ∉ s.reward_zone ∧
    ((s.reward_zone.length < MAX_RZ_SIZE ∧
        s'.reward_zone = to_add :: s.reward_zone) ∨
     (¬ s.reward_zone.length < MAX_RZ_SIZE ∧
        ∃ q i, tr = some q ∧ first_index_of s.reward_zone q = some i ∧
          s'.reward_zone = to_add :: s.reward_zone.eraseIdx i)) := by
  simp only [add_to_reward_zone] at hok
  by_cases hmem : to_add ∈ s.reward_zone
  · rw [if_pos hmem] at hok
    cases hok
  rw [if_neg hmem] at hok
  refine ⟨hmem, ?_⟩
  by_cases hth : env.above_threshold to_add = true
  · rw [if_neg (by simp [hth])] at hok
    by_cases hlen : s.reward_zone.length < MAX_RZ_SIZE
    · rw [if_pos hlen] at hok
      simp only [] at hok
      refine Or.inl ⟨hlen, ?_⟩
      rw [← Except.ok.inj hok]
    · rw [if_neg hlen] at hok
      rcases tr with _ | q
      · simp only [] at hok
        cases hok
      · simp only [] at hok
        by_cases hcmp : (s.pool_balance to_add).tokens ≤ (s.pool_balance q).tokens
        · rw [if_pos hcmp] at hok
          simp only [] at hok
          cases hok
        · rw [if_neg hcmp] at hok
          rcases hrp : remove_pool s env s.reward_zone q with e | pr
          · rw [hrp] at hok
            simp only [] at hok
            cases hok
          · rcases pr with ⟨s1, rz1⟩
            rw [hrp] at hok
            simp only [] at hok
            obtain ⟨i, hfi, hrz1, -⟩ := remove_pool_ok hrp
            refine Or.inr ⟨hlen, q, i, rfl, hfi, ?_⟩
            rw [← Except.ok.inj hok, ← hrz1]
  · rw [if_pos (by simp [hth])] at hok
    cases hok

/-- C9: the reward zone never gains a duplicate and never exceeds
`MAX_RZ_SIZE` (= 50): `add_to_reward_zone` fails with `BadRequest` on a pool
already in the zone; below capacity a successful add purely prepends; on a
full zone with no removal target it fails with `RewardZoneFull`; and every
successful `add_to_reward_zone` (prepend or swap of exactly one entry) and
every successful `remove_from_reward_zone` preserves `Nodup` and
`length ≤ 50`. -/
theorem C9_reward_zone_invariant (s : BackstopState) (env : HostEnv)
    (to_add : Addr) (tr : Option Addr) :
    (to_add ∈ s.reward_zone →
      add_to_reward_zone s env to_add tr = .error .BadRequest) ∧
    (∀ s', add_to_reward_zone s env to_add tr = .ok s' →
      s.reward_zone.length < MAX_RZ_SIZE →
      s'.reward_zone = to_add :: s.reward_zone) ∧
    (to_add ∉ s.reward_zone → env.above_threshold to_add = true →
      ¬ s.reward_zone.length < MAX_RZ_SIZE →
      add_to_reward_zone s env to_add none = .error .RewardZoneFull) ∧
    (∀ s', add_to_reward_zone s env to_add tr = .ok s' →
      s.reward_zone.Nodup → s.reward_zone.length ≤ MAX_RZ_SIZE →
      s'.reward_zone.Nodup ∧ s'.reward_zone.length ≤ MAX_RZ_SIZE) ∧
    (∀ p s', remove_from_reward_zone s env p = .ok s' →
      s.reward_zone.Nodup → s.reward_zone.length ≤ MAX_RZ_SIZE →
      s'.reward_zone.Nodup ∧ s'.reward_zone.length ≤ MAX_RZ_SIZE) := by
  refine ⟨?_, ?_, ?_, ?_, ?_⟩
  · intro hmem
    simp only [add_to_reward_zone]
    rw [if_pos hmem]
  · intro s' hok hlen
    rcases (add_to_reward_zone_ok hok).2 with h | h
    · exact h.2
    · exact absurd hlen h.1
  · intro hmem hth hlen
    simp only [add_to_reward_zone]
    rw [if_neg hmem, if_neg (by simp [hth]), if_neg hlen]
  · intro s' hok hno hlen
    obtain ⟨hmem, hcase⟩ := add_to_reward_zone_ok hok
    rcases hcase with ⟨hlt, hrz⟩ | ⟨hnlt, q, i, htr, hfi, hrz⟩
    · rw [hrz]
      refine ⟨List.nodup_cons.mpr ⟨hmem, hno⟩, ?_⟩
      simp only [List.length_cons, MAX_RZ_SIZE] at *
      omega
    · rw [hrz]
      have hilt := first_index_of_lt_length hfi
      refine ⟨List.nodup_cons.mpr
        ⟨fun hm => hmem ((List.eraseIdx_sublist _ i).subset hm),
         List.Nodup.sublist (List.eraseIdx_sublist _ i) hno⟩, ?_⟩
      simp only [List.length_cons, List.length_eraseIdx, if_pos hilt, MAX_RZ_SIZE] at *
      omega
  · intro p s' hok hno hlen
    simp only [remove_from_reward_zone] at hok
    by_cases hth : env.above_threshold p = true
    · rw [if_pos hth] at hok
      cases hok
    · rw [if_neg hth] at hok
      rcases hrp : remove_pool s env s.reward_zone p with e | pr
      · rw [hrp] at hok
        simp only [] at hok
        cases hok
      · rcases pr with ⟨s1, rz1⟩
        rw [hrp] at hok
        simp only [] at hok
        obtain ⟨i, hfi, hrz1, -⟩ := remove_pool_ok hrp
        have hilt := first_index_of_lt_length hfi
        have hs' : _ = s' := Except.ok.inj hok
        rw [← hs']
        constructor
        · simp only []
          rw [hrz1]
          exact List.Nodup.sublist (List.eraseIdx_sublist _ i) hno
        · simp only []
          rw [hrz1]
          simp only [List.length_eraseIdx, if_pos hilt, MAX_RZ_SIZE] at *
          omega

/-- C9 witness: adding pool 1 to `[2, 3]` prepends, keeps the zone duplicate
free and within the 50-pool bound. -/
theorem C9_reward_zone_invariant_witness :
    C9_state'.reward_zone = 1 :: C9_state.reward_zone ∧
    C9_state'.reward_zone.Nodup ∧ C9_state'.reward_zone.length ≤ MAX_RZ_SIZE :=
  ⟨(C9_reward_zone_invariant C9_state C9_env 1 none).2.1 C9_state' rfl (by decide),
   (C9_reward_zone_invariant C9_state C9_env 1 none).2.2.2.1 C9_state' rfl
     (by decide) (by decide)⟩

end Blend
